import Mathlib

/-!
Verification of the HM8143 power-supply driver's command-encoding layer.

The repository holds two variants of the same driver class, `HM8143.py`
(namespace `HM8143` below) and `main.py` (namespace `MainPy` below, embedded
only where it differs from `HM8143.py`).  Commands are plain ASCII strings,
so the byte strings passed to `serial.write` are modelled as Lean `String`s
(`str.encode`/`bytes.decode` are the identity on ASCII); a Python
`ValueError` raised before any write is modelled by `Except String`, whose
`ok` payload is the list of strings written to the serial port; numbers
passed by callers are modelled as exact rationals.
-/

/-- The exact rational `n / d` given in lowest terms; used to write the
decimal literals of the Python source (e.g. `6.9` as `dec 69 10 …`) through
`Rat`'s raw constructor so that they evaluate by kernel reduction. -/
def dec (n : ℤ) (d : ℕ) (hd : d ≠ 0) (hc : n.natAbs.Coprime d) : ℚ :=
  ⟨n, d, hd, hc⟩

namespace HM8143

/-- Round half to even of `a / b` for `b > 0` (Python's rounding of `%.2f`
at the exact midpoint; away from the midpoint it is rounding to nearest). -/
def rhe (a b : ℤ) : ℤ :=
  let f := a.fdiv b
  let r := a - f * b
  if 2 * r < b then f
  else if b < 2 * r then f + 1
  else if f % 2 = 0 then f else f + 1

/-- Python `f"{q:05.2f}"`: round to two fractional digits, zero-pad on the
left to a total width of five characters (sign included).  Embeds the
step-voltage formatting of `load_arbitrary_func`. -/
def format0502 (q : ℚ) : String :=
  let n := rhe (q.num * 100) (q.den : ℤ)
  let sign := if n < 0 then "-" else ""
  let m := n.natAbs
  let fracPart := m % 100
  let body := toString (m / 100) ++ "." ++ (if fracPart < 10 then "0" else "") ++ toString fracPart
  let pad :=
    if sign.length + body.length < 5 then
      String.mk (List.replicate (5 - sign.length - body.length) '0')
    else ""
  sign ++ pad ++ body

/-- Smallest `k ≥ 1` (up to the fuel) with `d ∣ 10 ^ k`: the number of
fractional digits Python prints for an exact decimal of denominator `d`. -/
def decExpGo : Nat → Nat → Nat → Nat
  | 0, _, k => k
  | fuel + 1, d, k => if 10 ^ k % d = 0 then k else decExpGo fuel d (k + 1)

/-- Python `str()` of a float holding the exact decimal the caller wrote
(e.g. `6.9 ↦ "6.9"`, `20 ↦ "20.0"`, `-0.5 ↦ "-0.5"`): the shortest decimal
expansion with at least one fractional digit (scientific notation, reached
only far outside the instrument's ranges, is out of scope).  This embeds the
f-string interpolation `f"{voltage}"` used by `set_voltage` and friends. -/
def pyFloatStr (q : ℚ) : String :=
  let sign := if q < 0 then "-" else ""
  let k := decExpGo 40 q.den 1
  let n := q.num.natAbs * (10 ^ k / q.den)
  let ip := n / 10 ^ k
  let fp := n % 10 ^ k
  let fpDigits := toString fp
  let fpStr := String.mk (List.replicate (k - fpDigits.length) '0') ++ fpDigits
  sign ++ toString ip ++ "." ++ fpStr

/-- Table from `HM8143.py` lines 24-39: the class attribute `TIME_MAPPING`
(duration in seconds ↦ serial key), entry for entry as the dict literal
is written (`100e-6: '0'`, …, `50: 'F'`); its keys are distinct, so the
dict holds exactly these sixteen pairs in this order. -/
def TIME_MAPPING : List (ℚ × Char) :=
  [(dec 1 10000 (by norm_num) (by norm_num), '0'),
   (dec 1 1000 (by norm_num) (by norm_num), '1'),
   (dec 1 500 (by norm_num) (by norm_num), '2'),
   (dec 1 200 (by norm_num) (by norm_num), '3'),
   (dec 1 100 (by norm_num) (by norm_num), '4'),
   (dec 1 50 (by norm_num) (by norm_num), '5'),
   (dec 1 20 (by norm_num) (by norm_num), '6'),
   (dec 1 10 (by norm_num) (by norm_num), '7'),
   (dec 1 5 (by norm_num) (by norm_num), '8'),
   (dec 1 2 (by norm_num) (by norm_num), '9'),
   ((1 : ℚ), 'A'),
   ((2 : ℚ), 'B'),
   ((5 : ℚ), 'C'),
   ((10 : ℚ), 'D'),
   ((20 : ℚ), 'E'),
   ((50 : ℚ), 'F')]

/-- Dict lookup `TIME_MAPPING[key]` (with an arbitrary default when the key
is absent; `load_arbitrary_func` indexes only after its subset check). -/
def timeCode (k : ℚ) : Char :=
  ((TIME_MAPPING.find? (fun p => decide (p.1 = k))).map Prod.snd).getD '?'

/-- Whether `k` is among the dict's keys (`set(arb_function.keys()) ⊆
set(TIME_MAPPING.keys())`, tested key by key). -/
def timeKey (k : ℚ) : Bool :=
  TIME_MAPPING.any (fun p => decide (p.1 = k))

/-- Method `_serial_encode`: `cmd.encode()`, the identity on ASCII commands. -/
def serial_encode (cmd : String) : String := cmd

/-- Method `_serial_decode`: `ret.decode()`, the identity on ASCII responses. -/
def serial_decode (ret : String) : String := ret

/-- Method `enable_output_sockets` (HM8143.py line 121): writes `'OP1'`. -/
def enable_output_sockets : List String := [serial_encode "OP1"]

/-- Method `disable_output_sockets` (HM8143.py line 128): writes `'OP1'`
(the body is identical to `enable_output_sockets`). -/
def disable_output_sockets : List String := [serial_encode "OP1"]

/-- Method `set_voltage(voltage, channel)` (HM8143.py lines 130-149): validates the
channel and the 30 V upper bound, then writes `f'SU{channel}:{voltage}'`. -/
def set_voltage (voltage : ℚ) (channel : ℤ) : Except String (List String) :=
  if channel ∉ ([1, 2] : List ℤ) then Except.error "channel index must not exceed 2"
  else if voltage > 30 then Except.error "voltage must not exceed 30V"
  else Except.ok [serial_encode ("SU" ++ toString channel ++ ":" ++ pyFloatStr voltage)]

/-- Method `set_voltage_sync(voltage)` (HM8143.py lines 151-164): tracking-mode
voltage; validates the 30 V upper bound, then writes `f'TRU:{voltage}'`. -/
def set_voltage_sync (voltage : ℚ) : Except String (List String) :=
  if voltage > 30 then Except.error "voltage must not exceed 30V"
  else Except.ok [serial_encode ("TRU:" ++ pyFloatStr voltage)]

/-- Method `set_current(current, channel)` (HM8143.py lines 166-186): validates the
channel and the 2 A upper bound, then writes `f'SI{channel}:{current}'`. -/
def set_current (current : ℚ) (channel : ℤ) : Except String (List String) :=
  if channel ∉ ([1, 2] : List ℤ) then Except.error "channel index must not exceed 2"
  else if current > 2 then Except.error "current must not exceed 2A"
  else Except.ok [serial_encode ("SI" ++ toString channel ++ ":" ++ pyFloatStr current)]

/-- Method `set_current_sync(current)` (HM8143.py lines 188-200): tracking-mode
current; validates the 2 A upper bound, then writes `f'TRI:{current}'`. -/
def set_current_sync (current : ℚ) : Except String (List String) :=
  if current > 2 then Except.error "current must not exceed 30V"
  else Except.ok [serial_encode ("TRI:" ++ pyFloatStr current)]

/-- pyserial `readline()` with the configured zero timeout: returns the
buffered bytes up to and including the first `'\n'`, or everything
available when no full line is buffered (in particular `""` when no
response has arrived). -/
def readlineAux : List Char → List Char
  | [] => []
  | c :: cs => if c = '\n' then [c] else c :: readlineAux cs

def readline (pending : String) : String :=
  String.mk (readlineAux pending.data)

/-- The shared shape of every query method: write the encoded command, then
return `self._serial_decode(self.ser.readline())`.  The result pairs the
written commands with the value returned to the caller; `pending` is what
the device has made available for reading. -/
def query (cmd : String) (pending : String) : List String × String :=
  ([serial_encode cmd], serial_decode (readline pending))

/-- Method `return_voltage_target(channel)` (HM8143.py lines 218-234): writes
`f'RU{channel}'` (no channel validation), then reads one line. -/
def return_voltage_target (channel : ℤ) (pending : String) : List String × String :=
  query ("RU" ++ toString channel) pending

/-- Method `return_current_target(channel)` (HM8143.py lines 236-251). -/
def return_current_target (channel : ℤ) (pending : String) : List String × String :=
  query ("RI" ++ toString channel) pending

/-- Method `return_voltage_actual(channel)` (HM8143.py lines 253-269). -/
def return_voltage_actual (channel : ℤ) (pending : String) : List String × String :=
  query ("MU" ++ toString channel) pending

/-- Method `return_current_actual(channel)` (HM8143.py lines 271-287). -/
def return_current_actual (channel : ℤ) (pending : String) : List String × String :=
  query ("MI" ++ toString channel) pending

/-- Method `return_status()` (HM8143.py lines 289-300). -/
def return_status (pending : String) : List String × String :=
  query "STA" pending

/-- Method `return_version()` (HM8143.py lines 302-313). -/
def return_version (pending : String) : List String × String :=
  query "VER" pending

/-- Method `return_ID()` (HM8143.py lines 315-326). -/
def return_ID (pending : String) : List String × String :=
  query "ID?" pending

/-- The loop body of `load_arbitrary_func`:
`comm = comm + TIME_MAPPING[key] + f"{arb_function[key]:05.2f}" + '_'`. -/
def stepStr (p : ℚ × ℚ) : String :=
  String.mk [timeCode p.1] ++ format0502 p.2 ++ "_"

/-- Method `load_arbitrary_func(arb_function, iteration)` (HM8143.py lines
337-370).  The dict of duration/voltage pairs is modelled as its list of
items in insertion order.  The checks, in source order: iteration above
255; any item's voltage above 30; the key set not a subset of
`TIME_MAPPING`'s keys.  Then the command is folded up step by step and the
single write is `'ABT:' + steps + f"N{iteration}"`. -/
def load_arbitrary_func (arb_function : List (ℚ × ℚ)) (iteration : ℤ) :
    Except String (List String) :=
  if iteration > 255 then Except.error "max iterations: 255"
  else if 0 < (arb_function.filter (fun vals => decide (vals.2 > 30))).length then
    Except.error "voltages must not exceed 30V"
  else if ¬ (arb_function.all (fun vals => timeKey vals.1)) then
    Except.error "one of the set durations in arb func is not supported. Choose from the following: [0.05, 0.1, 0.2, 1, 2, 5, 10, 0.01, 50, 20, 0.005, 0.02, 0.0001, 0.002, 0.001]"
  else
    Except.ok [serial_encode (arb_function.foldl (fun comm p => comm ++ stepStr p) "ABT:"
      ++ "N" ++ toString iteration)]

/-- One event on the serial line: a `ser.write` of an encoded command, or a
`time.sleep` of the given number of seconds. -/
inductive Event where
  | write : String → Event
  | sleep : ℚ → Event
deriving DecidableEq

/-- Method `run_arbitrary_func()` (HM8143.py lines 372-380): write `'OP1'`,
`time.sleep(0.1)`, write `'RUN'`. -/
def run_arbitrary_func : List Event :=
  [Event.write (serial_encode "OP1"),
   Event.sleep (dec 1 10 (by norm_num) (by norm_num)),
   Event.write (serial_encode "RUN")]

/-- Method `stop_arbitrary_func()` (HM8143.py lines 382-390): write `'STP'`,
`time.sleep(0.1)`, write `'OP0'`. -/
def stop_arbitrary_func : List Event :=
  [Event.write (serial_encode "STP"),
   Event.sleep (dec 1 10 (by norm_num) (by norm_num)),
   Event.write (serial_encode "OP0")]

end HM8143

namespace MainPy

/-- Python dict insertion: a repeated key overwrites the stored value in
place, a fresh key is appended. -/
def pyDictInsert (d : List (ℚ × Char)) (k : ℚ) (v : Char) : List (ℚ × Char) :=
  if d.any (fun p => decide (p.1 = k)) then
    d.map (fun p => if p.1 = k then (k, v) else p)
  else d ++ [(k, v)]

/-- The dict built from a literal's entries in source order. -/
def pyDict (entries : List (ℚ × Char)) : List (ℚ × Char) :=
  entries.foldl (fun d p => pyDictInsert d p.1 p.2) []

/-- Entries from `main.py` lines 203-218: the entries of the dict literal `time_mapping`
inside `load_arbitrary_func`, in source order; the key `50e-3` is written
twice, first with value `'6'` and again with value `'9'`, and `500e-3`
nowhere. -/
def time_mapping_entries : List (ℚ × Char) :=
  [(dec 1 10000 (by norm_num) (by norm_num), '0'),
   (dec 1 1000 (by norm_num) (by norm_num), '1'),
   (dec 1 500 (by norm_num) (by norm_num), '2'),
   (dec 1 200 (by norm_num) (by norm_num), '3'),
   (dec 1 100 (by norm_num) (by norm_num), '4'),
   (dec 1 50 (by norm_num) (by norm_num), '5'),
   (dec 1 20 (by norm_num) (by norm_num), '6'),
   (dec 1 10 (by norm_num) (by norm_num), '7'),
   (dec 1 5 (by norm_num) (by norm_num), '8'),
   (dec 1 20 (by norm_num) (by norm_num), '9'),
   ((1 : ℚ), 'A'),
   ((2 : ℚ), 'B'),
   ((5 : ℚ), 'C'),
   ((10 : ℚ), 'D'),
   ((20 : ℚ), 'E'),
   ((50 : ℚ), 'F')]

/-- The `time_mapping` dict value `main.py`'s loader actually uses. -/
def time_mapping : List (ℚ × Char) := pyDict time_mapping_entries

/-- Lookup among `time_mapping`'s keys. -/
def timeLookup (k : ℚ) : Option Char :=
  (time_mapping.find? (fun p => decide (p.1 = k))).map Prod.snd

/-- Method `disable_output_sockets` of `main.py` (lines 64-69) writes `'OP0'`. -/
def disable_output_sockets : List String := ["OP0"]

/-- Method `enable_output_sockets` of `main.py` (lines 57-62) writes `'OP1'`. -/
def enable_output_sockets : List String := ["OP1"]

end MainPy

open HM8143

/-- Whether a session call performed its writes (`true`) rather than
raising `ValueError` before any write (`false`). -/
def writesOk (e : Except String (List String)) : Bool :=
  match e with
  | Except.ok _ => true
  | Except.error _ => false

/-- Modelled from the spec: `encode_set_voltage(channel, v)` produces
exactly `SU{channel}:` followed by `v` rendered `%05.2f` (two integer
digits, two fractional digits, zero-padded). -/
def encode_set_voltage (channel : ℤ) (voltage : ℚ) : String :=
  "SU" ++ toString channel ++ ":" ++ format0502 voltage

/-- Modelled from the spec: the per-step blocks of the arbitrary-program
command, `{durationCode}{voltage:05.2f}_` for each step in caller order. -/
def specStepBlocks : List (ℚ × ℚ) → String
  | [] => ""
  | p :: ps => String.mk [timeCode p.1] ++ format0502 p.2 ++ "_" ++ specStepBlocks ps

/-- Modelled from the spec: `encode_load_arbitrary_program` — the literal
prefix `ABT:`, the step blocks in caller order, then `N{iterationCount}`. -/
def encode_load_arbitrary_program (steps : List (ℚ × ℚ)) (iterationCount : ℤ) : String :=
  "ABT:" ++ specStepBlocks steps ++ "N" ++ toString iterationCount

/-- Value of the raw-constructor rational `dec n d _ _`. -/
theorem dec_eq_div (n : ℤ) (d : ℕ) (hd : d ≠ 0) (hc : n.natAbs.Coprime d) :
    dec n d hd hc = (n : ℚ) / (d : ℚ) := by
  rw [dec, Rat.mk'_eq_divInt, Rat.divInt_eq_div]
  norm_cast

/-- When all three validations pass, `load_arbitrary_func` writes the
folded-up command once. -/
theorem load_arbitrary_func_ok (prog : List (ℚ × ℚ)) (iteration : ℤ)
    (hiter : iteration ≤ 255)
    (hvolt : ∀ p ∈ prog, p.2 ≤ 30)
    (hdur : ∀ p ∈ prog, timeKey p.1 = true) :
    load_arbitrary_func prog iteration =
      Except.ok [prog.foldl (fun comm p => comm ++ stepStr p) "ABT:"
        ++ "N" ++ toString iteration] := by
  have h2 : ¬ 0 < (prog.filter (fun vals => decide (vals.2 > 30))).length := by
    have hnil : prog.filter (fun vals => decide (vals.2 > 30)) = [] :=
      List.filter_eq_nil_iff.mpr (fun a ha => by simpa using not_lt.mpr (hvolt a ha))
    simp [hnil]
  have h3 : ¬ ¬ (prog.all (fun vals => timeKey vals.1) = true) :=
    not_not_intro (List.all_eq_true.mpr hdur)
  unfold load_arbitrary_func
  rw [if_neg (not_lt.mpr hiter), if_neg h2, if_neg h3]
  rfl

/-- Folding the step blocks from `init` appends them to `init`. -/
theorem foldl_stepStr_eq (prog : List (ℚ × ℚ)) (init : String) :
    prog.foldl (fun comm p => comm ++ stepStr p) init = init ++ specStepBlocks prog := by
  induction prog generalizing init with
  | nil => simp [specStepBlocks]
  | cons p ps ih =>
    rw [List.foldl_cons, ih, specStepBlocks]
    simp [stepStr, String.append_assoc]

/-- Lines without the delimiter inside are read back whole. -/
theorem readlineAux_line (cs : List Char) (h : '\n' ∉ cs) :
    readlineAux (cs ++ ['\n']) = cs ++ ['\n'] := by
  induction cs with
  | nil => simp [readlineAux]
  | cons c cs ih =>
    rw [List.mem_cons, not_or] at h
    rw [List.cons_append, readlineAux, if_neg (fun hc => h.1 hc.symm), ih h.2]

/-- The `readline` model returns a full pending line verbatim, delimiter
included. -/
theorem readline_line (l : String) (h : '\n' ∉ l.data) :
    readline (l ++ "\n") = l ++ "\n" := by
  apply String.ext
  rw [readline, String.data_append]
  exact readlineAux_line l.data h

/-- C1: the claim fails on the code.  `set_voltage(6.9, channel=1)` writes
`'SU1:6.9'` — plain Python float interpolation — not the zero-padded
`%05.2f` rendering `'SU1:06.90'` that the claim states, the method's own
docstring (`format: VV.mVmV`) describes, and the spec-modelled encoder
produces. -/
theorem c1_set_voltage_unpadded :
    set_voltage (dec 69 10 (by norm_num) (by norm_num)) 1 = Except.ok ["SU1:6.9"] ∧
    encode_set_voltage 1 (dec 69 10 (by norm_num) (by norm_num)) = "SU1:06.90" ∧
    "SU1:6.9" ≠ "SU1:06.90" :=
  ⟨rfl, rfl, by decide⟩

/-- C2: for every program whose durations are keys of the duration table,
whose voltages are at most 30 and whose iteration count is at most 255,
`load_arbitrary_func` writes exactly the string the spec prescribes:
`ABT:`, then `{durationCode}{voltage:05.2f}_` per step in caller order,
then `N{iterationCount}`. -/
theorem c2_load_arbitrary_program_encoding (prog : List (ℚ × ℚ)) (iterationCount : ℤ)
    (hdur : ∀ p ∈ prog, timeKey p.1 = true)
    (hvolt : ∀ p ∈ prog, p.2 ≤ 30)
    (hiter : iterationCount ≤ 255) :
    load_arbitrary_func prog iterationCount =
      Except.ok [encode_load_arbitrary_program prog iterationCount] := by
  rw [load_arbitrary_func_ok prog iterationCount hiter hvolt hdur, foldl_stepStr_eq,
    encode_load_arbitrary_program]

/-- Witness for C2: the spec's end-to-end scenario, the program
[(1 s, 20.0), (0.001 s, 15.0), (0.1 s, 2.0)] with iteration count 2. -/
theorem c2_witness :
    load_arbitrary_func
      [((1 : ℚ), (20 : ℚ)),
       (dec 1 1000 (by norm_num) (by norm_num), (15 : ℚ)),
       (dec 1 10 (by norm_num) (by norm_num), (2 : ℚ))] 2 =
      Except.ok ["ABT:A20.00_115.00_702.00_N2"] :=
  (c2_load_arbitrary_program_encoding _ 2 (by decide) (by decide) (by decide)).trans (by rfl)

/-- C3: the claim holds of `HM8143.py`'s `TIME_MAPPING` — exactly the
sixteen canonical (duration, code) pairs, total on its sixteen keys and
injective — but `main.py`'s loader builds its `time_mapping` from a dict
literal whose key `50e-3` appears twice (first `'6'`, then `'9'`), so the
mapping that loader actually uses sends 0.05 s to `'9'`, has no entry at
all for 0.5 s, and holds only fifteen pairs. -/
theorem c3_duration_table :
    TIME_MAPPING.map Prod.fst =
      [dec 1 10000 (by norm_num) (by norm_num), dec 1 1000 (by norm_num) (by norm_num),
       dec 1 500 (by norm_num) (by norm_num), dec 1 200 (by norm_num) (by norm_num),
       dec 1 100 (by norm_num) (by norm_num), dec 1 50 (by norm_num) (by norm_num),
       dec 1 20 (by norm_num) (by norm_num), dec 1 10 (by norm_num) (by norm_num),
       dec 1 5 (by norm_num) (by norm_num), dec 1 2 (by norm_num) (by norm_num),
       (1 : ℚ), (2 : ℚ), (5 : ℚ), (10 : ℚ), (20 : ℚ), (50 : ℚ)] ∧
    TIME_MAPPING.map Prod.snd =
      ['0', '1', '2', '3', '4', '5', '6', '7', '8', '9', 'A', 'B', 'C', 'D', 'E', 'F'] ∧
    (TIME_MAPPING.map Prod.fst).Nodup ∧
    (TIME_MAPPING.map Prod.snd).Nodup ∧
    timeCode (dec 1 20 (by norm_num) (by norm_num)) = '6' ∧
    timeCode (dec 1 2 (by norm_num) (by norm_num)) = '9' ∧
    MainPy.timeLookup (dec 1 20 (by norm_num) (by norm_num)) = some '9' ∧
    MainPy.timeLookup (dec 1 2 (by norm_num) (by norm_num)) = none ∧
    MainPy.time_mapping.length = 15 :=
  ⟨rfl, rfl, by decide, by decide, rfl, rfl, rfl, rfl, rfl⟩

/-- Counterexample to C4: with channel 3 each of the four per-channel query
operations writes its command to the transport (e.g. the bytes `RU3`)
instead of failing with a validation error and producing no command. -/
theorem c4_counterexample :
    (return_voltage_target 3 "").1 = ["RU3"] ∧
    (return_current_target 3 "").1 = ["RI3"] ∧
    (return_voltage_actual 3 "").1 = ["MU3"] ∧
    (return_current_actual 3 "").1 = ["MI3"] :=
  ⟨rfl, rfl, rfl, rfl⟩

/-- C4 amended: for every channel outside {1, 2}, set-voltage and
set-current fail with `ValueError` and write nothing, while the four
query operations perform no channel validation and write `RU/RI/MU/MI`
followed by the given channel. -/
theorem c4_amended (channel : ℤ) (h : channel ∉ ([1, 2] : List ℤ)) (v c : ℚ)
    (pending : String) :
    set_voltage v channel = Except.error "channel index must not exceed 2" ∧
    set_current c channel = Except.error "channel index must not exceed 2" ∧
    (return_voltage_target channel pending).1 = ["RU" ++ toString channel] ∧
    (return_current_target channel pending).1 = ["RI" ++ toString channel] ∧
    (return_voltage_actual channel pending).1 = ["MU" ++ toString channel] ∧
    (return_current_actual channel pending).1 = ["MI" ++ toString channel] := by
  refine ⟨?_, ?_, rfl, rfl, rfl, rfl⟩
  · unfold set_voltage
    rw [if_pos h]
  · unfold set_current
    rw [if_pos h]

/-- Witness for C4 at channel 3. -/
theorem c4_witness :
    set_voltage 1 3 = Except.error "channel index must not exceed 2" ∧
    set_current 1 3 = Except.error "channel index must not exceed 2" ∧
    (return_voltage_target 3 "").1 = ["RU" ++ toString (3 : ℤ)] ∧
    (return_current_target 3 "").1 = ["RI" ++ toString (3 : ℤ)] ∧
    (return_voltage_actual 3 "").1 = ["MU" ++ toString (3 : ℤ)] ∧
    (return_current_actual 3 "").1 = ["MI" ++ toString (3 : ℤ)] :=
  c4_amended 3 (by decide) 1 1 ""

/-- C5: the claim states the intended behaviour (`OP0` disables), and
`HM8143.py`'s `disable_output_sockets` contradicts its own docstring
("turn output sockets off") by writing the enable command `OP1`; the
`main.py` variant writes `OP0` as documented. -/
theorem c5_disable_output_sockets_bug :
    HM8143.disable_output_sockets = ["OP1"] ∧
    HM8143.enable_output_sockets = ["OP1"] ∧
    MainPy.disable_output_sockets = ["OP0"] ∧
    MainPy.enable_output_sockets = ["OP1"] :=
  ⟨rfl, rfl, rfl, rfl⟩

/-- Counterexample to C6: the voltage -0.5 V and the current -0.5 A lie
outside the claimed inclusive domains [0, 30] and [0, 2], yet both setters
accept them and write a command. -/
theorem c6_counterexample :
    set_voltage (dec (-1) 2 (by norm_num) (by norm_num)) 1 = Except.ok ["SU1:-0.5"] ∧
    set_current (dec (-1) 2 (by norm_num) (by norm_num)) 1 = Except.ok ["SI1:-0.5"] ∧
    dec (-1) 2 (by norm_num) (by norm_num) < 0 :=
  ⟨rfl, rfl, by decide⟩

/-- C6 amended: for every valid channel, set-voltage and set-current (and
the tracking variants) fail exactly when the value exceeds the upper bound
(30 V, 2 A) and succeed for every value at or below it — no lower bound is
enforced, so negative values are accepted and encoded. -/
theorem c6_amended (v c : ℚ) (channel : ℤ) (h : channel ∈ ([1, 2] : List ℤ)) :
    (writesOk (set_voltage v channel) = true ↔ v ≤ 30) ∧
    (writesOk (set_current c channel) = true ↔ c ≤ 2) ∧
    (writesOk (set_voltage_sync v) = true ↔ v ≤ 30) ∧
    (writesOk (set_current_sync c) = true ↔ c ≤ 2) := by
  have h' : ¬ channel ∉ ([1, 2] : List ℤ) := not_not_intro h
  refine ⟨?_, ?_, ?_, ?_⟩
  · unfold set_voltage
    rw [if_neg h']
    rcases le_or_lt v 30 with hv | hv
    · rw [if_neg (not_lt.mpr hv)]
      simp [writesOk, hv]
    · rw [if_pos hv]
      simp [writesOk, not_le.mpr hv]
  · unfold set_current
    rw [if_neg h']
    rcases le_or_lt c 2 with hc | hc
    · rw [if_neg (not_lt.mpr hc)]
      simp [writesOk, hc]
    · rw [if_pos hc]
      simp [writesOk, not_le.mpr hc]
  · unfold set_voltage_sync
    rcases le_or_lt v 30 with hv | hv
    · rw [if_neg (not_lt.mpr hv)]
      simp [writesOk, hv]
    · rw [if_pos hv]
      simp [writesOk, not_le.mpr hv]
  · unfold set_current_sync
    rcases le_or_lt c 2 with hc | hc
    · rw [if_neg (not_lt.mpr hc)]
      simp [writesOk, hc]
    · rw [if_pos hc]
      simp [writesOk, not_le.mpr hc]

/-- Witness for C6 at 5 V, 1 A, channel 1. -/
theorem c6_witness :
    (writesOk (set_voltage 5 1) = true ↔ (5 : ℚ) ≤ 30) ∧
    (writesOk (set_current 1 1) = true ↔ (1 : ℚ) ≤ 2) ∧
    (writesOk (set_voltage_sync 5) = true ↔ (5 : ℚ) ≤ 30) ∧
    (writesOk (set_current_sync 1) = true ↔ (1 : ℚ) ≤ 2) :=
  c6_amended 5 1 1 (by decide)

/-- Counterexample to C7: the iteration count -1 lies outside the claimed
accepted range [0, 255], yet the loader accepts it and writes `ABT:N-1`. -/
theorem c7_counterexample :
    load_arbitrary_func [] (-1) = Except.ok ["ABT:N-1"] :=
  rfl

/-- C7 amended: the loader rejects iteration counts above 255 with a
`ValueError` raised before any write (so 256 fails and no partial command
is sent), and for an otherwise valid program accepts every integer
iteration count at most 255 — 0 and 255, but also negative values —
writing a single command that ends in `N` followed by the count. -/
theorem c7_amended (prog : List (ℚ × ℚ))
    (hdur : ∀ p ∈ prog, timeKey p.1 = true)
    (hvolt : ∀ p ∈ prog, p.2 ≤ 30) :
    load_arbitrary_func prog 256 = Except.error "max iterations: 255" ∧
    ∃ steps : String, ∀ iteration : ℤ, iteration ≤ 255 →
      load_arbitrary_func prog iteration =
        Except.ok [steps ++ "N" ++ toString iteration] := by
  constructor
  · unfold load_arbitrary_func
    rw [if_pos (by norm_num)]
  · exact ⟨_, fun iteration hiter => load_arbitrary_func_ok prog iteration hiter hvolt hdur⟩

/-- Witness for C7 on the one-step program [(1 s, 20.0)]. -/
theorem c7_witness :
    load_arbitrary_func [((1 : ℚ), (20 : ℚ))] 256 = Except.error "max iterations: 255" ∧
    ∃ steps : String, ∀ iteration : ℤ, iteration ≤ 255 →
      load_arbitrary_func [((1 : ℚ), (20 : ℚ))] iteration =
        Except.ok [steps ++ "N" ++ toString iteration] :=
  c7_amended _ (by decide) (by decide)

/-- C8: running the loaded arbitrary program issues exactly `OP1` then
`RUN`, in that order, with a sleep of at least 100 ms (in fact exactly
0.1 s) between them and nothing else on the line; stopping issues exactly
`STP` then `OP0` with the same settling sleep. -/
theorem c8_run_stop_sequences :
    (∃ s : ℚ, run_arbitrary_func = [Event.write "OP1", Event.sleep s, Event.write "RUN"] ∧
      100 / 1000 ≤ s) ∧
    (∃ s : ℚ, stop_arbitrary_func = [Event.write "STP", Event.sleep s, Event.write "OP0"] ∧
      100 / 1000 ≤ s) := by
  constructor
  · refine ⟨dec 1 10 (by norm_num) (by norm_num), rfl, ?_⟩
    rw [dec_eq_div]
    norm_num
  · refine ⟨dec 1 10 (by norm_num) (by norm_num), rfl, ?_⟩
    rw [dec_eq_div]
    norm_num

/-- Counterexample to C9: a pending response line `"OK\n"` is returned with
its line delimiter still attached, not stripped to `"OK"`; and with no
pending data the query returns `""` instead of failing with a timeout
error. -/
theorem c9_counterexample :
    (return_status "OK\n").2 = "OK\n" ∧ "OK\n" ≠ "OK" ∧ (return_status "").2 = "" :=
  ⟨rfl, by decide, rfl⟩

/-- C9 amended: every query operation returns the `readline` text verbatim
— the transport's line delimiter is not stripped — and when no response
data is pending the non-blocking read yields `""`, which is returned to
the caller; no timeout error is raised anywhere on the read path. -/
theorem c9_amended (l : String) (hl : '\n' ∉ l.data) (channel : ℤ) :
    (return_status (l ++ "\n")).2 = l ++ "\n" ∧
    (return_version (l ++ "\n")).2 = l ++ "\n" ∧
    (return_ID (l ++ "\n")).2 = l ++ "\n" ∧
    (return_voltage_target channel (l ++ "\n")).2 = l ++ "\n" ∧
    (return_current_target channel (l ++ "\n")).2 = l ++ "\n" ∧
    (return_voltage_actual channel (l ++ "\n")).2 = l ++ "\n" ∧
    (return_current_actual channel (l ++ "\n")).2 = l ++ "\n" ∧
    (return_status "").2 = "" := by
  have key : readline (l ++ "\n") = l ++ "\n" := readline_line l hl
  refine ⟨?_, ?_, ?_, ?_, ?_, ?_, ?_, rfl⟩ <;>
    simp [return_status, return_version, return_ID, return_voltage_target,
      return_current_target, return_voltage_actual, return_current_actual,
      query, serial_decode, key]

/-- Witness for C9 with the pending line `"OK\n"` and channel 1. -/
theorem c9_witness :
    (return_status ("OK" ++ "\n")).2 = "OK" ++ "\n" ∧
    (return_version ("OK" ++ "\n")).2 = "OK" ++ "\n" ∧
    (return_ID ("OK" ++ "\n")).2 = "OK" ++ "\n" ∧
    (return_voltage_target 1 ("OK" ++ "\n")).2 = "OK" ++ "\n" ∧
    (return_current_target 1 ("OK" ++ "\n")).2 = "OK" ++ "\n" ∧
    (return_voltage_actual 1 ("OK" ++ "\n")).2 = "OK" ++ "\n" ∧
    (return_current_actual 1 ("OK" ++ "\n")).2 = "OK" ++ "\n" ∧
    (return_status "").2 = "" :=
  c9_amended "OK" (by decide) 1

/-- C10: the loader accepts the empty program with any iteration count in
[0, 255] and writes exactly `ABT:N{iteration}`, with no step segments. -/
theorem c10_empty_program (iteration : ℤ) (h0 : 0 ≤ iteration) (h255 : iteration ≤ 255) :
    load_arbitrary_func [] iteration = Except.ok ["ABT:N" ++ toString iteration] :=
  (load_arbitrary_func_ok [] iteration h255 (by simp) (by simp)).trans rfl

/-- Witness for C10 at iteration count 2. -/
theorem c10_witness :
    load_arbitrary_func [] 2 = Except.ok ["ABT:N2"] :=
  (c10_empty_program 2 (by decide) (by decide)).trans (by rfl)
